import Mathlib

/-!
Verification of the ofnet agent core (ofnetAgent.go) and the policy agent
(ofnetPolicy.go) of the netplugin repository.

Modelling conventions:
- Go maps are shallow-embedded as association lists with first-binding-wins
  lookup; map writes replace any existing binding for the key.
- net.IP and net.HardwareAddr values are embedded as their String() forms,
  which is also how the source compares them (always via .String()).
- time.Time is embedded as a Nat; t1.After(t2) is t2 < t1.
- Machine integers are Nat (or Int for Go int fields), with explicit
  mod 2^w at the points where Go conversions or shifts can overflow.
- Calls into the pluggable datapath (OfnetDatapath, not part of the
  analysed sources) are recorded as trace events; their success or failure
  is decided by an oracle function supplied to each operation, and the
  returned error string is threaded exactly as the source does.
- Outbound RPC calls to masters are likewise decided by an oracle; RPC
  calls whose result the source ignores (only logs) are not modelled.
-/

set_option maxRecDepth 4096

/-- Association-list lookup, modelling a Go map read: first binding wins. -/
def alookup {α β : Type} [DecidableEq α] : List (α × β) → α → Option β
  | [], _ => none
  | (k1, v) :: rest, k => if k1 = k then some v else alookup rest k

/-- Association-list delete, modelling Go delete(m, k): removes every binding of k. -/
def adel {α β : Type} [DecidableEq α] (l : List (α × β)) (k : α) : List (α × β) :=
  l.filter (fun p => !decide (p.1 = k))

/-- Association-list insert, modelling a Go map write m[k] = v (replace or add). -/
def ains {α β : Type} [DecidableEq α] (l : List (α × β)) (k : α) (v : β) : List (α × β) :=
  adel l k ++ [(k, v)]

/-- OfnetNode: master node info {HostAddr, HostPort} (ofnet). -/
structure OfnetNode where
  HostAddr : String
  HostPort : Nat
deriving DecidableEq

/-- OfnetEndpoint. The struct declaration itself is not among the provided
sources; the field set is exactly the one assembled by
OfnetAgent.AddLocalEndpoint in ofnetAgent.go and listed in the spec (section 3). -/
structure OfnetEndpoint where
  EndpointID : String
  EndpointType : String
  EndpointGroup : Int
  IpAddr : String
  VrfId : Nat
  MacAddrStr : String
  Vlan : Nat
  Vni : Nat
  OriginatorIp : String
  PortNo : Nat
  Timestamp : Nat
deriving DecidableEq

/-- EndpointInfo: argument of AddLocalEndpoint (ofnetAgent.go). -/
structure EndpointInfo where
  PortNo : Nat
  EndpointGroup : Int
  MacAddr : String
  Vlan : Nat
  IpAddr : String
deriving DecidableEq

/-- The mutable tables of OfnetAgent (ofnetAgent.go, struct OfnetAgent). -/
structure OfnetAgentState where
  localIp : String
  masterDb : List (String × OfnetNode)
  portVlanMap : List (Nat × Nat)
  vniVlanMap : List (Nat × Nat)
  vlanVniMap : List (Nat × Nat)
  vtepTable : List (String × Nat)
  endpointDb : List (String × OfnetEndpoint)
  localEndpointDb : List (Nat × OfnetEndpoint)
deriving DecidableEq

/-- One call into the pluggable OfnetDatapath interface. -/
inductive DpEvent where
  | addLocalEndpoint (ep : OfnetEndpoint)
  | removeLocalEndpoint (ep : OfnetEndpoint)
  | addEndpoint (ep : OfnetEndpoint)
  | removeEndpoint (ep : OfnetEndpoint)
  | addVtepPort (portNo : Nat) (remoteIp : String)
  | removeVtepPort (portNo : Nat) (remoteIp : String)
  | addVlan (vlanId : Nat) (vni : Nat)
  | removeVlan (vlanId : Nat) (vni : Nat)
deriving DecidableEq

/-- Outcome of an agent operation: the new table state, the returned Go error
(none is a nil error), and the sequence of datapath calls made. -/
structure OpResult where
  state : OfnetAgentState
  ret : Option String
  trace : List DpEvent
deriving DecidableEq

/-- Oracle deciding the result of each datapath call (none is success). -/
abbrev DpOracle := DpEvent → Option String

/-- Oracle deciding the result of each OfnetMaster.EndpointAdd RPC to a master. -/
abbrev RpcAddOracle := OfnetNode → OfnetEndpoint → Option String

/-- getEndpointId (ofnetAgent.go): the endpoint id is the IP address string. -/
def getEndpointId (endpoint : EndpointInfo) : String :=
  endpoint.IpAddr

/-- t1.After(t2) on time.Time: strictly later. -/
def timeAfter (t1 t2 : Nat) : Bool :=
  decide (t2 < t1)

/-- The epreg record built by AddLocalEndpoint (ofnetAgent.go). -/
def buildLocalEndpoint (s : OfnetAgentState) (endpoint : EndpointInfo) (vni : Nat)
    (now : Nat) : OfnetEndpoint :=
  { EndpointID := getEndpointId endpoint
    EndpointType := "internal"
    EndpointGroup := endpoint.EndpointGroup
    IpAddr := endpoint.IpAddr
    VrfId := 0
    MacAddrStr := endpoint.MacAddr
    Vlan := endpoint.Vlan
    Vni := vni
    OriginatorIp := s.localIp
    PortNo := endpoint.PortNo
    Timestamp := now }

/-- The master-announce loop of AddLocalEndpoint: call OfnetMaster.EndpointAdd
on every master in order, returning the first failure (ofnetAgent.go). -/
def announceToMasters (rpc : RpcAddOracle) (masters : List (String × OfnetNode))
    (epreg : OfnetEndpoint) : Option String :=
  match masters with
  | [] => none
  | (_, m) :: rest =>
    match rpc m epreg with
    | some e => some e
    | none => announceToMasters rpc rest epreg

/-- OfnetAgent.AddLocalEndpoint (ofnetAgent.go). The port-to-vlan binding is
written first; an unknown vlan or a datapath failure returns early with the
binding already in place; on success both endpoint indexes are written and the
endpoint is announced to every master, returning the first RPC failure. -/
def AddLocalEndpoint (dp : DpOracle) (rpc : RpcAddOracle) (now : Nat)
    (s : OfnetAgentState) (endpoint : EndpointInfo) : OpResult :=
  let s0 := { s with portVlanMap := ains s.portVlanMap endpoint.PortNo endpoint.Vlan }
  match alookup s0.vlanVniMap endpoint.Vlan with
  | none => { state := s0, ret := some "Unknown Vlan", trace := [] }
  | some vni =>
    let epId := getEndpointId endpoint
    let epreg := buildLocalEndpoint s0 endpoint vni now
    match dp (DpEvent.addLocalEndpoint epreg) with
    | some e => { state := s0, ret := some e, trace := [DpEvent.addLocalEndpoint epreg] }
    | none =>
      let s1 := { s0 with
        endpointDb := ains s0.endpointDb epId epreg
        localEndpointDb := ains s0.localEndpointDb endpoint.PortNo epreg }
      { state := s1
        ret := announceToMasters rpc s1.masterDb epreg
        trace := [DpEvent.addLocalEndpoint epreg] }

/-- OfnetAgent.RemoveLocalEndpoint (ofnetAgent.go). The datapath error and the
OfnetMaster.EndpointDel RPC failures are only logged by the source, so they do
not appear in the state or the return value. -/
def RemoveLocalEndpoint (dp : DpOracle) (s : OfnetAgentState) (portNo : Nat) : OpResult :=
  let s0 := { s with portVlanMap := adel s.portVlanMap portNo }
  match alookup s0.localEndpointDb portNo with
  | none => { state := s0, ret := some "Endpoint not found", trace := [] }
  | some epreg =>
    let s1 := { s0 with
      endpointDb := adel s0.endpointDb epreg.EndpointID
      localEndpointDb := adel s0.localEndpointDb portNo }
    { state := s1, ret := none, trace := [DpEvent.removeLocalEndpoint epreg] }

/-- The install path of AddVtepPort: store the mapping, call the datapath. -/
def addVtepInstall (dp : DpOracle) (s : OfnetAgentState) (portNo : Nat)
    (remoteIp : String) : OpResult :=
  let s1 := { s with vtepTable := ains s.vtepTable remoteIp portNo }
  { state := s1
    ret := dp (DpEvent.addVtepPort portNo remoteIp)
    trace := [DpEvent.addVtepPort portNo remoteIp] }

/-- OfnetAgent.AddVtepPort (ofnetAgent.go): duplicate adds with the same port
return nil without touching anything. -/
def AddVtepPort (dp : DpOracle) (s : OfnetAgentState) (portNo : Nat)
    (remoteIp : String) : OpResult :=
  match alookup s.vtepTable remoteIp with
  | some oldPort =>
    if oldPort = portNo then { state := s, ret := none, trace := [] }
    else addVtepInstall dp s portNo remoteIp
  | none => addVtepInstall dp s portNo remoteIp

/-- OfnetAgent.EndpointDel RPC handler (ofnetAgent.go): echoes and unknown
endpoints are silently ignored; otherwise the datapath uninstall is attempted
(its error only logged) and the endpoint is unindexed. -/
def EndpointDel (dp : DpOracle) (s : OfnetAgentState) (epreg : OfnetEndpoint) : OpResult :=
  if epreg.OriginatorIp = s.localIp then { state := s, ret := none, trace := [] }
  else
    match alookup s.endpointDb epreg.EndpointID with
    | none => { state := s, ret := none, trace := [] }
    | some _ =>
      { state := { s with endpointDb := adel s.endpointDb epreg.EndpointID }
        ret := none
        trace := [DpEvent.removeEndpoint epreg] }

/-- The endpoint walk of RemoveVtepPort (ofnetAgent.go): every endpoint whose
OriginatorIp is the removed remote goes through EndpointDel (errors logged). -/
def removeVtepLoop (dp : DpOracle) (remoteIp : String) :
    List (String × OfnetEndpoint) → OfnetAgentState → OfnetAgentState × List DpEvent
  | [], s => (s, [])
  | (_, ep) :: rest, s =>
    if ep.OriginatorIp = remoteIp then
      let r := EndpointDel dp s ep
      let rec1 := removeVtepLoop dp remoteIp rest r.state
      (rec1.1, r.trace ++ rec1.2)
    else removeVtepLoop dp remoteIp rest s

/-- OfnetAgent.RemoveVtepPort (ofnetAgent.go). -/
def RemoveVtepPort (dp : DpOracle) (s : OfnetAgentState) (portNo : Nat)
    (remoteIp : String) : OpResult :=
  let s0 := { s with vtepTable := adel s.vtepTable remoteIp }
  let walked := removeVtepLoop dp remoteIp s0.endpointDb s0
  { state := walked.1
    ret := dp (DpEvent.removeVtepPort portNo remoteIp)
    trace := walked.2 ++ [DpEvent.removeVtepPort portNo remoteIp] }

/-- OfnetAgent.AddVlan (ofnetAgent.go). -/
def AddVlan (dp : DpOracle) (s : OfnetAgentState) (vlanId : Nat) (vni : Nat) : OpResult :=
  let s1 := { s with
    vlanVniMap := ains s.vlanVniMap vlanId vni
    vniVlanMap := ains s.vniVlanMap vni vlanId }
  { state := s1, ret := dp (DpEvent.addVlan vlanId vni), trace := [DpEvent.addVlan vlanId vni] }

/-- OfnetAgent.RemoveVlan (ofnetAgent.go). The source deletes both map entries
and then log.Fatalf-aborts the process if any endpoint still carries the vni;
the abort is modelled as the none result, which discards all observations. -/
def RemoveVlan (dp : DpOracle) (s : OfnetAgentState) (vlanId : Nat) (vni : Nat) :
    Option OpResult :=
  let s0 := { s with
    vlanVniMap := adel s.vlanVniMap vlanId
    vniVlanMap := adel s.vniVlanMap vni }
  if s0.endpointDb.any (fun p => decide (p.2.Vni = vni)) then none
  else some { state := s0
              ret := dp (DpEvent.removeVlan vlanId vni)
              trace := [DpEvent.removeVlan vlanId vni] }

/-- The install tail of the EndpointAdd RPC handler (ofnetAgent.go): record the
endpoint in the endpoint table, then look up its VTEP and install in the
datapath; tr carries the datapath calls already made by the handler. -/
def endpointAddInstall (dp : DpOracle) (s : OfnetAgentState) (epreg : OfnetEndpoint)
    (tr : List DpEvent) : OpResult :=
  let s1 := { s with endpointDb := ains s.endpointDb epreg.EndpointID epreg }
  match alookup s1.vtepTable epreg.OriginatorIp with
  | none => { state := s1, ret := some "VTEP not found", trace := tr }
  | some _ =>
    { state := s1
      ret := dp (DpEvent.addEndpoint epreg)
      trace := tr ++ [DpEvent.addEndpoint epreg] }

/-- OfnetAgent.EndpointAdd RPC handler (ofnetAgent.go): echo check, then
last-writer-wins on Timestamp, then install. -/
def EndpointAdd (dp : DpOracle) (s : OfnetAgentState) (epreg : OfnetEndpoint) : OpResult :=
  if epreg.OriginatorIp = s.localIp then { state := s, ret := none, trace := [] }
  else
    match alookup s.endpointDb epreg.EndpointID with
    | some oldEp =>
      if !timeAfter epreg.Timestamp oldEp.Timestamp then
        { state := s, ret := none, trace := [] }
      else endpointAddInstall dp s epreg [DpEvent.removeEndpoint oldEp]
    | none => endpointAddInstall dp s epreg []

/-- Flow-table and priority constants (ofnetAgent.go). -/
def FLOW_MATCH_PRIORITY : Nat := 100

/-- Table-miss priority (ofnetAgent.go). -/
def FLOW_MISS_PRIORITY : Nat := 1

/-- Priority offset added to policy rule priorities (ofnetAgent.go). -/
def FLOW_POLICY_PRIORITY_OFFSET : Nat := 10

/-- TCP flag constants local to AddRule (ofnetPolicy.go). -/
def TCP_FLAG_ACK : Nat := 0x10

/-- TCP SYN flag constant local to AddRule (ofnetPolicy.go). -/
def TCP_FLAG_SYN : Nat := 0x2

/-- Go conversion uint64(i) for i of type int: wrap modulo 2^64. -/
def goUint64OfInt (i : Int) : Nat :=
  (i % (2 : Int) ^ 64).toNat

/-- Go conversion uint16(i) for i of type int: wrap modulo 2^16. -/
def goUint16OfInt (i : Int) : Nat :=
  (i % (2 : Int) ^ 16).toNat

/-- DstGroupMetadata (ofnetPolicy.go): metadata = uint64(groupId) << 1,
masked with 0xfffe; the shift itself wraps at 64 bits. -/
def DstGroupMetadata (groupId : Int) : Nat × Nat :=
  let metadata := (goUint64OfInt groupId <<< 1) % 2 ^ 64
  let metadataMask := 0xfffe
  (metadata &&& metadataMask, metadataMask)

/-- SrcGroupMetadata (ofnetPolicy.go): metadata = uint64(groupId) << 16,
masked with 0x7fff0000; the shift itself wraps at 64 bits. -/
def SrcGroupMetadata (groupId : Int) : Nat × Nat :=
  let metadata := (goUint64OfInt groupId <<< 16) % 2 ^ 64
  let metadataMask := 0x7fff0000
  (metadata &&& metadataMask, metadataMask)

/-- Modelled from the spec: Go standard-library net parsing of one IPv4
dotted-quad octet group (external to this repository). -/
def parseIPv4 (s : String) : Option Nat :=
  match (s.splitOn ".").map String.toNat? with
  | [some a, some b, some c, some d] =>
    if a ≤ 255 ∧ b ≤ 255 ∧ c ≤ 255 ∧ d ≤ 255 then
      some (((a * 256 + b) * 256 + c) * 256 + d)
    else none
  | _ => none

/-- Modelled from the spec: Go standard-library net.ParseCIDR (external to
this repository), IPv4 form a.b.c.d/len; yields the parsed IP and the value
of 255.255.255.255 masked with the prefix mask, as AddRule computes it. -/
def parseCIDR (s : String) : Option (Nat × Nat) :=
  match s.splitOn "/" with
  | [ipStr, lenStr] =>
    match parseIPv4 ipStr, lenStr.toNat? with
    | some ip, some n =>
      if n ≤ 32 then some (ip, (0xffffffff <<< (32 - n)) % 2 ^ 32) else none
    | _, _ => none
  | _ => none

/-- The IP-CIDR parsing step of AddRule (ofnetPolicy.go) for one rule field:
an empty field yields no match constraint, a malformed field is an error. -/
def parseRuleIp (field : String) : Except String (Option Nat × Option Nat) :=
  if field = "" then Except.ok (none, none)
  else
    match parseCIDR field with
    | none => Except.error "invalid CIDR address"
    | some (ip, mask) => Except.ok (some ip, some mask)

/-- OfnetPolicyRule. The struct declaration itself is not among the provided
sources; the field set is the one listed in the spec (section 3) and used by
PolicyAgent.AddRule in ofnetPolicy.go. -/
structure OfnetPolicyRule where
  RuleId : String
  Priority : Int
  SrcEndpointGroup : Int
  DstEndpointGroup : Int
  SrcIpAddr : String
  DstIpAddr : String
  IpProtocol : Nat
  SrcPort : Nat
  DstPort : Nat
  TcpFlags : String
  Action : String
deriving DecidableEq

/-- The endpoint-group metadata step of AddRule (ofnetPolicy.go): both groups
OR-combined, or a single group alone, or no metadata match at all. -/
def ruleMetadata (rule : OfnetPolicyRule) : Option Nat × Option Nat :=
  if rule.SrcEndpointGroup ≠ 0 ∧ rule.DstEndpointGroup ≠ 0 then
    let src := SrcGroupMetadata rule.SrcEndpointGroup
    let dst := DstGroupMetadata rule.DstEndpointGroup
    (some (src.1 ||| dst.1), some (src.2 ||| dst.2))
  else if rule.SrcEndpointGroup ≠ 0 then
    let src := SrcGroupMetadata rule.SrcEndpointGroup
    (some src.1, some src.2)
  else if rule.DstEndpointGroup ≠ 0 then
    let dst := DstGroupMetadata rule.DstEndpointGroup
    (some dst.1, some dst.2)
  else (none, none)

/-- The TCP-flag compilation step of AddRule (ofnetPolicy.go): for TCP rules
with a nonempty TcpFlags string, exactly five strings are accepted; anything
else is the Unknown TCP flag error. -/
def tcpFlagsParse (rule : OfnetPolicyRule) : Except String (Option Nat × Option Nat) :=
  if rule.IpProtocol = 6 ∧ rule.TcpFlags ≠ "" then
    if rule.TcpFlags = "syn" then
      Except.ok (some TCP_FLAG_SYN, some TCP_FLAG_SYN)
    else if rule.TcpFlags = "syn,ack" then
      Except.ok (some (TCP_FLAG_ACK ||| TCP_FLAG_SYN), some (TCP_FLAG_ACK ||| TCP_FLAG_SYN))
    else if rule.TcpFlags = "ack" then
      Except.ok (some TCP_FLAG_ACK, some TCP_FLAG_ACK)
    else if rule.TcpFlags = "syn,!ack" then
      Except.ok (some TCP_FLAG_SYN, some (TCP_FLAG_ACK ||| TCP_FLAG_SYN))
    else if rule.TcpFlags = "!syn,ack" then
      Except.ok (some TCP_FLAG_ACK, some (TCP_FLAG_ACK ||| TCP_FLAG_SYN))
    else Except.error "Unknown TCP flag"
  else Except.ok (none, none)

/-- The ofctrl.FlowMatch fields that AddRule fills in (ofnetPolicy.go);
pointer-typed match fields are Option. -/
structure FlowMatch where
  Priority : Nat
  Ethertype : Nat
  IpDa : Option Nat := none
  IpDaMask : Option Nat := none
  IpSa : Option Nat := none
  IpSaMask : Option Nat := none
  IpProto : Nat := 0
  TcpSrcPort : Nat := 0
  TcpDstPort : Nat := 0
  UdpSrcPort : Nat := 0
  UdpDstPort : Nat := 0
  Metadata : Option Nat := none
  MetadataMask : Option Nat := none
  TcpFlags : Option Nat := none
  TcpFlagsMask : Option Nat := none
deriving DecidableEq

/-- Where an installed policy flow points: the datapath next table (accept)
or the switch drop action (deny). -/
inductive FlowNext where
  | toNextTable
  | toDrop
deriving DecidableEq

/-- An installed flow: its match plus where it chains to. -/
structure PolicyFlow where
  flowMatch : FlowMatch
  next : Option FlowNext := none
deriving DecidableEq

/-- PolicyRule (ofnetPolicy.go): the rule definition with its compiled flow. -/
structure PolicyRule where
  rule : OfnetPolicyRule
  flow : PolicyFlow
deriving DecidableEq

/-- The mutable tables of PolicyAgent that AddRule touches (ofnetPolicy.go):
the rules database and the flows installed in the policy table. -/
structure PolicyAgentState where
  Rules : List (String × PolicyRule)
  policyTableFlows : List PolicyFlow
deriving DecidableEq

/-- ruleIsSame (ofnetPolicy.go): reflect.DeepEqual on the two rule structs,
which on this field set is structural equality. -/
def ruleIsSame (r1 r2 : OfnetPolicyRule) : Bool :=
  decide (r1 = r2)

/-- The FlowMatch that AddRule hands to policyTable.NewFlow (ofnetPolicy.go). -/
def mkRuleFlowMatch (rule : OfnetPolicyRule) (ipDa ipDaMask ipSa ipSaMask : Option Nat)
    (flagPtr flagMaskPtr : Option Nat) : FlowMatch :=
  { Priority := goUint16OfInt ((FLOW_POLICY_PRIORITY_OFFSET : Int) + rule.Priority)
    Ethertype := 0x0800
    IpDa := ipDa
    IpDaMask := ipDaMask
    IpSa := ipSa
    IpSaMask := ipSaMask
    IpProto := rule.IpProtocol
    TcpSrcPort := rule.SrcPort
    TcpDstPort := rule.DstPort
    UdpSrcPort := rule.SrcPort
    UdpDstPort := rule.DstPort
    Metadata := (ruleMetadata rule).1
    MetadataMask := (ruleMetadata rule).2
    TcpFlags := flagPtr
    TcpFlagsMask := flagMaskPtr }

/-- The flow AddRule installs: the match, chained per the rule action
(accept to the next table, deny to drop, anything else left unchained). -/
def mkRuleFlow (rule : OfnetPolicyRule) (ipDa ipDaMask ipSa ipSaMask : Option Nat)
    (flagPtr flagMaskPtr : Option Nat) : PolicyFlow :=
  { flowMatch := mkRuleFlowMatch rule ipDa ipDaMask ipSa ipSaMask flagPtr flagMaskPtr
    next :=
      if rule.Action = "accept" then some FlowNext.toNextTable
      else if rule.Action = "deny" then some FlowNext.toDrop
      else none }

/-- PolicyAgent.AddRule (ofnetPolicy.go): duplicate-id check first (identical
rule is a nil no-op, differing rule the Rule already exists error), then IP
parsing, metadata and TCP-flag compilation, then the flow is installed in the
policy table and the rule recorded in the rules database. The flow-pipeline
primitives (ofctrl, not among the analysed sources) are modelled as always
succeeding. -/
def AddRule (s : PolicyAgentState) (rule : OfnetPolicyRule) :
    PolicyAgentState × Option String :=
  match alookup s.Rules rule.RuleId with
  | some existing =>
    if ruleIsSame existing.rule rule then (s, none)
    else (s, some "Rule already exists")
  | none =>
    match parseRuleIp rule.DstIpAddr with
    | Except.error e => (s, some e)
    | Except.ok (ipDa, ipDaMask) =>
      match parseRuleIp rule.SrcIpAddr with
      | Except.error e => (s, some e)
      | Except.ok (ipSa, ipSaMask) =>
        match tcpFlagsParse rule with
        | Except.error e => (s, some e)
        | Except.ok (flagPtr, flagMaskPtr) =>
          let ruleFlow := mkRuleFlow rule ipDa ipDaMask ipSa ipSaMask flagPtr flagMaskPtr
          ({ Rules := ains s.Rules rule.RuleId { rule := rule, flow := ruleFlow }
             policyTableFlows := s.policyTableFlows ++ [ruleFlow] }, none)

/-- Datapath oracle on which every datapath call succeeds. -/
def dpAllOk : DpOracle := fun _ => none

/-- RPC oracle on which every master announce succeeds. -/
def rpcAllOk : RpcAddOracle := fun _ _ => none

/-- RPC oracle on which every master announce fails. -/
def rpcRefuse : RpcAddOracle := fun _ _ => some "connection refused"

/-- A remote endpoint already installed, for the last-writer-wins scenario. -/
def c1old : OfnetEndpoint :=
  { EndpointID := "10.2.2.2", EndpointType := "internal", EndpointGroup := 0,
    IpAddr := "10.2.2.2", VrfId := 0, MacAddrStr := "02:02:02:02:02:02",
    Vlan := 1, Vni := 100, OriginatorIp := "10.10.10.2", PortNo := 11,
    Timestamp := 10 }

/-- A stale update for the same endpoint id with an older timestamp. -/
def c1new : OfnetEndpoint :=
  { c1old with OriginatorIp := "10.10.10.3", PortNo := 12, Timestamp := 5 }

/-- Agent state holding c1old, with the VTEPs of both originators known. -/
def c1state : OfnetAgentState :=
  { localIp := "10.10.10.1", masterDb := [], portVlanMap := [],
    vniVlanMap := [(100, 1)], vlanVniMap := [(1, 100)],
    vtepTable := [("10.10.10.2", 20), ("10.10.10.3", 21)],
    endpointDb := [("10.2.2.2", c1old)], localEndpointDb := [] }

/-- Agent state with an empty VTEP table. -/
def c2state : OfnetAgentState :=
  { localIp := "10.10.10.1", masterDb := [], portVlanMap := [],
    vniVlanMap := [], vlanVniMap := [], vtepTable := [],
    endpointDb := [], localEndpointDb := [] }

/-- A remote endpoint whose originator has no VTEP entry in c2state. -/
def c2ep : OfnetEndpoint :=
  { EndpointID := "10.2.2.9", EndpointType := "internal", EndpointGroup := 0,
    IpAddr := "10.2.2.9", VrfId := 0, MacAddrStr := "02:02:02:02:02:09",
    Vlan := 1, Vni := 100, OriginatorIp := "10.10.10.9", PortNo := 13,
    Timestamp := 7 }

/-- Agent state with one registered master and a configured vlan. -/
def c5state : OfnetAgentState :=
  { localIp := "10.10.10.1",
    masterDb := [("10.10.10.100:9001", { HostAddr := "10.10.10.100", HostPort := 9001 })],
    portVlanMap := [], vniVlanMap := [(100, 1)], vlanVniMap := [(1, 100)],
    vtepTable := [], endpointDb := [], localEndpointDb := [] }

/-- Local endpoint info for the announce-failure scenario. -/
def c5info : EndpointInfo :=
  { PortNo := 5, EndpointGroup := 0, MacAddr := "02:02:02:02:05:05",
    Vlan := 1, IpAddr := "10.2.2.5" }

/-- A remote endpoint that shares its IP (hence its endpoint id) with the
local endpoint about to be added in the round-trip counterexample. -/
def c6remote : OfnetEndpoint :=
  { EndpointID := "10.2.2.7", EndpointType := "internal", EndpointGroup := 0,
    IpAddr := "10.2.2.7", VrfId := 0, MacAddrStr := "02:02:02:02:07:07",
    Vlan := 1, Vni := 100, OriginatorIp := "10.10.10.2", PortNo := 14,
    Timestamp := 3 }

/-- Agent state for the round-trip counterexample: vlan 1 is configured, port 7
is unoccupied, but the endpoint table already holds c6remote under the same id. -/
def c6state : OfnetAgentState :=
  { localIp := "10.10.10.1", masterDb := [], portVlanMap := [],
    vniVlanMap := [(100, 1)], vlanVniMap := [(1, 100)],
    vtepTable := [("10.10.10.2", 20)],
    endpointDb := [("10.2.2.7", c6remote)], localEndpointDb := [] }

/-- Local endpoint info whose IP collides with c6remote. -/
def c6info : EndpointInfo :=
  { PortNo := 7, EndpointGroup := 0, MacAddr := "02:02:02:02:06:06",
    Vlan := 1, IpAddr := "10.2.2.7" }

/-- A clean agent state satisfying all preconditions of the amended round trip. -/
def c6wstate : OfnetAgentState :=
  { localIp := "10.10.10.1", masterDb := [], portVlanMap := [],
    vniVlanMap := [(100, 1)], vlanVniMap := [(1, 100)], vtepTable := [],
    endpointDb := [], localEndpointDb := [] }

/-- A remote endpoint owned by the VTEP about to be removed. -/
def c7ep : OfnetEndpoint :=
  { EndpointID := "10.2.2.3", EndpointType := "internal", EndpointGroup := 0,
    IpAddr := "10.2.2.3", VrfId := 0, MacAddrStr := "02:02:02:02:03:03",
    Vlan := 1, Vni := 100, OriginatorIp := "10.10.10.2", PortNo := 15,
    Timestamp := 4 }

/-- Agent state holding c7ep and the VTEP entry for its originator. -/
def c7state : OfnetAgentState :=
  { localIp := "10.10.10.1", masterDb := [], portVlanMap := [],
    vniVlanMap := [(100, 1)], vlanVniMap := [(1, 100)],
    vtepTable := [("10.10.10.2", 20)],
    endpointDb := [("10.2.2.3", c7ep)], localEndpointDb := [] }

/-- Agent state with vlan 5 mapped to vni 500 and no endpoints on it. -/
def c8state : OfnetAgentState :=
  { localIp := "10.10.10.1", masterDb := [], portVlanMap := [],
    vniVlanMap := [(500, 5)], vlanVniMap := [(5, 500)], vtepTable := [],
    endpointDb := [], localEndpointDb := [] }

/-- Agent state whose VTEP table already maps 10.10.10.2 to port 20. -/
def c10state : OfnetAgentState :=
  { localIp := "10.10.10.1", masterDb := [], portVlanMap := [],
    vniVlanMap := [], vlanVniMap := [], vtepTable := [("10.10.10.2", 20)],
    endpointDb := [], localEndpointDb := [] }

/-- The empty policy agent state. -/
def polEmpty : PolicyAgentState :=
  { Rules := [], policyTableFlows := [] }

/-- A rule matching destination group 42 only (spec example: metadata 0x54). -/
def c3rule : OfnetPolicyRule :=
  { RuleId := "c3", Priority := 1, SrcEndpointGroup := 0, DstEndpointGroup := 42,
    SrcIpAddr := "", DstIpAddr := "", IpProtocol := 0, SrcPort := 0, DstPort := 0,
    TcpFlags := "", Action := "deny" }

/-- A plain accept rule for the re-submission scenario. -/
def c4rule : OfnetPolicyRule :=
  { RuleId := "c4", Priority := 1, SrcEndpointGroup := 0, DstEndpointGroup := 0,
    SrcIpAddr := "", DstIpAddr := "", IpProtocol := 0, SrcPort := 0, DstPort := 0,
    TcpFlags := "", Action := "accept" }

/-- The same RuleId as c4rule with one differing field. -/
def c4ruleDiff : OfnetPolicyRule :=
  { c4rule with Priority := 2 }

/-- The database entry AddRule creates for c4rule. -/
def c4pr : PolicyRule :=
  { rule := c4rule, flow := mkRuleFlow c4rule none none none none none none }

/-- Policy state in which c4rule is already installed. -/
def c4state : PolicyAgentState :=
  { Rules := [("c4", c4pr)], policyTableFlows := [c4pr.flow] }

/-- A TCP rule carrying an unrecognized flag string. -/
def c9rule : OfnetPolicyRule :=
  { RuleId := "c9", Priority := 1, SrcEndpointGroup := 0, DstEndpointGroup := 0,
    SrcIpAddr := "", DstIpAddr := "", IpProtocol := 6, SrcPort := 0, DstPort := 0,
    TcpFlags := "fin", Action := "deny" }

theorem alookup_append_some {α β : Type} [DecidableEq α] {l1 : List (α × β)}
    (l2 : List (α × β)) {k : α} {v : β} (h : alookup l1 k = some v) :
    alookup (l1 ++ l2) k = some v := by
  induction l1 with
  | nil => simp [alookup] at h
  | cons p t ih =>
    obtain ⟨k1, v1⟩ := p
    by_cases hk : k1 = k
    · simp [alookup, hk] at h ⊢
      exact h
    · simp [alookup, hk] at h ⊢
      exact ih h

theorem alookup_append_none {α β : Type} [DecidableEq α] {l1 : List (α × β)}
    (l2 : List (α × β)) {k : α} (h : alookup l1 k = none) :
    alookup (l1 ++ l2) k = alookup l2 k := by
  induction l1 with
  | nil => simp [alookup]
  | cons p t ih =>
    obtain ⟨k1, v1⟩ := p
    by_cases hk : k1 = k
    · simp [alookup, hk] at h
    · simp [alookup, hk] at h ⊢
      exact ih h

theorem alookup_adel_self {α β : Type} [DecidableEq α] (l : List (α × β)) (k : α) :
    alookup (adel l k) k = none := by
  induction l with
  | nil => rfl
  | cons p t ih =>
    obtain ⟨k1, v1⟩ := p
    by_cases hk : k1 = k
    · simpa [adel, List.filter, hk] using ih
    · simpa [adel, List.filter, alookup, hk] using ih

theorem alookup_adel_ne {α β : Type} [DecidableEq α] (l : List (α × β)) {k k1 : α}
    (h : k1 ≠ k) : alookup (adel l k) k1 = alookup l k1 := by
  have hks : ¬k = k1 := fun hc => h hc.symm
  induction l with
  | nil => rfl
  | cons p t ih =>
    obtain ⟨k0, v0⟩ := p
    by_cases hk : k0 = k
    · subst hk
      simp [adel, List.filter, alookup, hks] at ih ⊢
      exact ih
    · by_cases hk1 : k0 = k1
      · subst hk1
        simp [adel, List.filter, alookup, hk]
      · simp [adel, List.filter, alookup, hk, hk1] at ih ⊢
        exact ih

theorem alookup_ains_self {α β : Type} [DecidableEq α] (l : List (α × β)) (k : α) (v : β) :
    alookup (ains l k v) k = some v := by
  unfold ains
  rw [alookup_append_none _ (alookup_adel_self l k)]
  simp [alookup]

theorem alookup_ains_ne {α β : Type} [DecidableEq α] (l : List (α × β)) {k k1 : α} (v : β)
    (h : k1 ≠ k) : alookup (ains l k v) k1 = alookup l k1 := by
  unfold ains
  cases hd : alookup (adel l k) k1 with
  | some w =>
    rw [alookup_append_some _ hd, ← hd, alookup_adel_ne l h]
  | none =>
    rw [alookup_append_none _ hd]
    have hks : ¬k = k1 := fun hc => h hc.symm
    have h1 : alookup ([(k, v)] : List (α × β)) k1 = none := by
      simp [alookup, hks]
    rw [h1, ← alookup_adel_ne l h, hd]

theorem adel_eq_self {α β : Type} [DecidableEq α] {l : List (α × β)} {k : α}
    (h : alookup l k = none) : adel l k = l := by
  induction l with
  | nil => rfl
  | cons p t ih =>
    obtain ⟨k1, v1⟩ := p
    by_cases hk : k1 = k
    · simp [alookup, hk] at h
    · simp [alookup, hk] at h
      simp [adel, List.filter, hk] at ih ⊢
      exact ih h

theorem adel_ains {α β : Type} [DecidableEq α] {l : List (α × β)} {k : α} (v : β)
    (h : alookup l k = none) : adel (ains l k v) k = l := by
  unfold ains adel
  rw [List.filter_append]
  have h2 : List.filter (fun p => !decide (p.1 = k)) [(k, v)] = [] := by
    simp [List.filter]
  rw [h2, List.append_nil]
  show adel (adel l k) k = l
  rw [adel_eq_self (alookup_adel_self l k), adel_eq_self h]

theorem mem_of_alookup_some {α β : Type} [DecidableEq α] {l : List (α × β)} {k : α} {v : β}
    (h : alookup l k = some v) : (k, v) ∈ l := by
  induction l with
  | nil => simp [alookup] at h
  | cons p t ih =>
    obtain ⟨k1, v1⟩ := p
    by_cases hk : k1 = k
    · simp [alookup, hk] at h
      simp [hk, h]
    · simp [alookup, hk] at h
      simp [ih h]

theorem mem_adel {α β : Type} [DecidableEq α] {l : List (α × β)} {k : α} {p : α × β}
    (h : p ∈ adel l k) : p ∈ l :=
  List.mem_of_mem_filter h

theorem EndpointDel_localIp (dp : DpOracle) (s : OfnetAgentState) (ep : OfnetEndpoint) :
    (EndpointDel dp s ep).state.localIp = s.localIp := by
  unfold EndpointDel
  by_cases h : ep.OriginatorIp = s.localIp
  · simp [h]
  · simp only [h]
    cases alookup s.endpointDb ep.EndpointID <;> simp

theorem EndpointDel_vtepTable (dp : DpOracle) (s : OfnetAgentState) (ep : OfnetEndpoint) :
    (EndpointDel dp s ep).state.vtepTable = s.vtepTable := by
  unfold EndpointDel
  by_cases h : ep.OriginatorIp = s.localIp
  · simp [h]
  · simp only [h]
    cases alookup s.endpointDb ep.EndpointID <;> simp

theorem EndpointDel_db_none (dp : DpOracle) (s : OfnetAgentState) (ep : OfnetEndpoint)
    {k : String} (h : alookup s.endpointDb k = none) :
    alookup (EndpointDel dp s ep).state.endpointDb k = none := by
  unfold EndpointDel
  by_cases h1 : ep.OriginatorIp = s.localIp
  · simpa [h1] using h
  · simp only [h1]
    cases alookup s.endpointDb ep.EndpointID with
    | none => simpa using h
    | some e =>
      simp only [ite_false]
      by_cases h2 : k = ep.EndpointID
      · subst h2
        simpa using alookup_adel_self s.endpointDb ep.EndpointID
      · simpa [alookup_adel_ne s.endpointDb h2] using h

theorem EndpointDel_mem (dp : DpOracle) (s : OfnetAgentState) (ep : OfnetEndpoint)
    {p : String × OfnetEndpoint} (h : p ∈ (EndpointDel dp s ep).state.endpointDb) :
    p ∈ s.endpointDb := by
  unfold EndpointDel at h
  by_cases h1 : ep.OriginatorIp = s.localIp
  · simpa [h1] using h
  · simp only [h1] at h
    cases hdb : alookup s.endpointDb ep.EndpointID with
    | none => rw [hdb] at h; simpa using h
    | some e =>
      rw [hdb] at h
      simp only [ite_false] at h
      exact mem_adel h

theorem removeVtepLoop_localIp (dp : DpOracle) (rip : String)
    (es : List (String × OfnetEndpoint)) :
    ∀ s : OfnetAgentState, (removeVtepLoop dp rip es s).1.localIp = s.localIp := by
  induction es with
  | nil => intro s; rfl
  | cons p rest ih =>
    intro s
    obtain ⟨k0, ep0⟩ := p
    by_cases h : ep0.OriginatorIp = rip
    · simp only [removeVtepLoop, h, if_true]
      rw [ih (EndpointDel dp s ep0).state, EndpointDel_localIp]
    · simp only [removeVtepLoop, h, if_false]
      exact ih s

theorem removeVtepLoop_vtepTable (dp : DpOracle) (rip : String)
    (es : List (String × OfnetEndpoint)) :
    ∀ s : OfnetAgentState, (removeVtepLoop dp rip es s).1.vtepTable = s.vtepTable := by
  induction es with
  | nil => intro s; rfl
  | cons p rest ih =>
    intro s
    obtain ⟨k0, ep0⟩ := p
    by_cases h : ep0.OriginatorIp = rip
    · simp only [removeVtepLoop, h, if_true]
      rw [ih (EndpointDel dp s ep0).state, EndpointDel_vtepTable]
    · simp only [removeVtepLoop, h, if_false]
      exact ih s

theorem removeVtepLoop_db_none (dp : DpOracle) (rip : String)
    (es : List (String × OfnetEndpoint)) :
    ∀ (s : OfnetAgentState) (k : String), alookup s.endpointDb k = none →
      alookup (removeVtepLoop dp rip es s).1.endpointDb k = none := by
  induction es with
  | nil => intro s k h; exact h
  | cons p rest ih =>
    intro s k h
    obtain ⟨k0, ep0⟩ := p
    by_cases hor : ep0.OriginatorIp = rip
    · simp only [removeVtepLoop, hor, if_true]
      exact ih (EndpointDel dp s ep0).state k (EndpointDel_db_none dp s ep0 h)
    · simp only [removeVtepLoop, hor, if_false]
      exact ih s k h

theorem removeVtepLoop_mem (dp : DpOracle) (rip : String)
    (es : List (String × OfnetEndpoint)) :
    ∀ (s : OfnetAgentState) (p : String × OfnetEndpoint),
      p ∈ (removeVtepLoop dp rip es s).1.endpointDb → p ∈ s.endpointDb := by
  induction es with
  | nil => intro s p h; exact h
  | cons q rest ih =>
    intro s p h
    obtain ⟨k0, ep0⟩ := q
    by_cases hor : ep0.OriginatorIp = rip
    · simp only [removeVtepLoop, hor, if_true] at h
      exact EndpointDel_mem dp s ep0 (ih (EndpointDel dp s ep0).state p h)
    · simp only [removeVtepLoop, hor, if_false] at h
      exact ih s p h

theorem removeVtepLoop_purge (dp : DpOracle) (rip : String)
    (es : List (String × OfnetEndpoint)) :
    ∀ (s : OfnetAgentState) (k : String) (ep : OfnetEndpoint),
      (k, ep) ∈ es → ep.EndpointID = k → ep.OriginatorIp = rip → rip ≠ s.localIp →
      alookup (removeVtepLoop dp rip es s).1.endpointDb k = none := by
  induction es with
  | nil => intro s k ep h; simp at h
  | cons q rest ih =>
    intro s k ep hmem hid hor hself
    obtain ⟨k0, ep0⟩ := q
    rcases List.mem_cons.mp hmem with heq | htail
    · obtain ⟨hk, hep⟩ := Prod.mk.injEq .. ▸ heq
      subst hep
      simp only [removeVtepLoop, hor, if_true]
      have hdel : alookup (EndpointDel dp s ep).state.endpointDb k = none := by
        unfold EndpointDel
        have hne : ¬ep.OriginatorIp = s.localIp := by
          rw [hor]; exact hself
        simp only [hne, if_false, ite_false]
        cases hdb : alookup s.endpointDb ep.EndpointID with
        | none => simpa [hid] using hdb
        | some e =>
          simp only []
          rw [← hid]
          exact alookup_adel_self s.endpointDb ep.EndpointID
      exact removeVtepLoop_db_none dp rip rest _ k hdel
    · by_cases hor0 : ep0.OriginatorIp = rip
      · simp only [removeVtepLoop, hor0, if_true]
        refine ih (EndpointDel dp s ep0).state k ep htail hid hor ?_
        rw [EndpointDel_localIp]
        exact hself
      · simp only [removeVtepLoop, hor0, if_false]
        exact ih s k ep htail hid hor hself

theorem removeVtepLoop_trace (dp : DpOracle) (rip : String)
    (es : List (String × OfnetEndpoint)) :
    ∀ (s : OfnetAgentState) (k : String) (ep : OfnetEndpoint),
      (∀ p ∈ es, p.2.EndpointID = p.1) →
      alookup es k = some ep → ep.OriginatorIp = rip → rip ≠ s.localIp →
      (alookup s.endpointDb k).isSome →
      DpEvent.removeEndpoint ep ∈ (removeVtepLoop dp rip es s).2 := by
  induction es with
  | nil => intro s k ep _ h; simp [alookup] at h
  | cons q rest ih =>
    intro s k ep hids hlk hor hself halive
    obtain ⟨k0, ep0⟩ := q
    by_cases hk : k0 = k
    · subst hk
      have hep : ep0 = ep := by
        simpa [alookup] using hlk
      subst hep
      have hid : ep0.EndpointID = k0 := hids (k0, ep0) (List.mem_cons_self _ _)
      simp only [removeVtepLoop, hor, if_true]
      have htr : (EndpointDel dp s ep0).trace = [DpEvent.removeEndpoint ep0] := by
        unfold EndpointDel
        have hne : ¬ep0.OriginatorIp = s.localIp := by
          rw [hor]; exact hself
        simp only [hne, if_false, ite_false]
        cases hdb : alookup s.endpointDb ep0.EndpointID with
        | none =>
          rw [hid] at hdb
          rw [hdb] at halive
          simp at halive
        | some e => simp
      rw [htr]
      exact List.mem_append_left _ (List.mem_cons_self _ _)
    · have hlk1 : alookup rest k = some ep := by
        simpa [alookup, hk] using hlk
      have hids1 : ∀ p ∈ rest, p.2.EndpointID = p.1 :=
        fun p hp => hids p (List.mem_cons_of_mem _ hp)
      by_cases hor0 : ep0.OriginatorIp = rip
      · simp only [removeVtepLoop, hor0, if_true]
        have hid0 : ep0.EndpointID = k0 := hids (k0, ep0) (List.mem_cons_self _ _)
        have halive1 : (alookup (EndpointDel dp s ep0).state.endpointDb k).isSome := by
          unfold EndpointDel
          have hne : ¬ep0.OriginatorIp = s.localIp := by
            rw [hor0]; exact hself
          simp only [hne, if_false, ite_false]
          cases hdb : alookup s.endpointDb ep0.EndpointID with
          | none => simpa using halive
          | some e =>
            simp only []
            have hkne : k ≠ k0 := fun hc => hk hc.symm
            rw [hid0, alookup_adel_ne s.endpointDb hkne]
            exact halive
        have hself1 : rip ≠ (EndpointDel dp s ep0).state.localIp := by
          rw [EndpointDel_localIp]; exact hself
        exact List.mem_append_right _
          (ih (EndpointDel dp s ep0).state k ep hids1 hlk1 hor hself1 halive1)
      · simp only [removeVtepLoop, hor0, if_false]
        exact ih s k ep hids1 hlk1 hor hself halive

/-- Claim C10: if the VTEP table already maps remoteIp to the same port
number, AddVtepPort returns nil immediately, leaves the VTEP table unchanged
and makes no datapath call. -/
theorem addVtepPort_duplicateNoop (dp : DpOracle) (s : OfnetAgentState) (portNo : Nat)
    (remoteIp : String) (h : alookup s.vtepTable remoteIp = some portNo) :
    AddVtepPort dp s portNo remoteIp = { state := s, ret := none, trace := [] } := by
  unfold AddVtepPort
  rw [h]
  simp

/-- Witness for C10 at a concrete table. -/
theorem addVtepPort_duplicateNoop_witness :
    AddVtepPort dpAllOk c10state 20 "10.10.10.2" =
      { state := c10state, ret := none, trace := [] } :=
  addVtepPort_duplicateNoop dpAllOk c10state 20 "10.10.10.2" (by decide)

/-- Claim C4: re-submitting a structurally identical rule is a nil no-op;
re-submitting a rule with the same RuleId but any differing field returns the
Rule already exists error, leaving the rules database and flows unchanged. -/
theorem addRule_resubmission (s : PolicyAgentState) (r1 : OfnetPolicyRule)
    (pr : PolicyRule) (h : alookup s.Rules r1.RuleId = some pr) :
    (pr.rule = r1 → AddRule s r1 = (s, none)) ∧
    (pr.rule ≠ r1 → AddRule s r1 = (s, some "Rule already exists")) := by
  constructor
  · intro heq
    unfold AddRule
    rw [h]
    simp [ruleIsSame, heq]
  · intro hne
    unfold AddRule
    rw [h]
    simp [ruleIsSame, hne]

/-- Witness for C4: identical re-add is a no-op, differing re-add conflicts. -/
theorem addRule_resubmission_witness :
    AddRule c4state c4rule = (c4state, none) ∧
    AddRule c4state c4ruleDiff = (c4state, some "Rule already exists") :=
  ⟨(addRule_resubmission c4state c4rule c4pr (by decide)).1 (by decide),
   (addRule_resubmission c4state c4ruleDiff c4pr (by decide)).2 (by decide)⟩

/-- Claim C8: RemoveVlan aborts the process (modelled none) whenever some
endpoint with the vni is still installed; with no such endpoint it deletes
both map entries and returns the datapath result. -/
theorem removeVlan_fatalPrecondition (dp : DpOracle) (s : OfnetAgentState)
    (vlanId vni : Nat) :
    ((∃ p ∈ s.endpointDb, p.2.Vni = vni) → RemoveVlan dp s vlanId vni = none) ∧
    ((∀ p ∈ s.endpointDb, p.2.Vni ≠ vni) →
      RemoveVlan dp s vlanId vni = some
        { state := { s with vlanVniMap := adel s.vlanVniMap vlanId
                            vniVlanMap := adel s.vniVlanMap vni }
          ret := dp (DpEvent.removeVlan vlanId vni)
          trace := [DpEvent.removeVlan vlanId vni] }) := by
  constructor
  · intro hex
    have hany : (s.endpointDb.any fun p => decide (p.2.Vni = vni)) = true := by
      rw [List.any_eq_true]
      obtain ⟨p, hp, hv⟩ := hex
      exact ⟨p, hp, by simp [hv]⟩
    unfold RemoveVlan
    rw [if_pos hany]
  · intro hall
    have hany : (s.endpointDb.any fun p => decide (p.2.Vni = vni)) = false := by
      rw [List.any_eq_false]
      intro p hp
      simp [hall p hp]
    unfold RemoveVlan
    rw [if_neg (by rw [hany]; exact Bool.false_ne_true)]

/-- Witness for C8 at a concrete state with no endpoints on the vni. -/
theorem removeVlan_fatalPrecondition_witness :
    RemoveVlan dpAllOk c8state 5 500 = some
      { state := { c8state with vlanVniMap := adel c8state.vlanVniMap 5
                                vniVlanMap := adel c8state.vniVlanMap 500 }
        ret := dpAllOk (DpEvent.removeVlan 5 500)
        trace := [DpEvent.removeVlan 5 500] } :=
  (removeVlan_fatalPrecondition dpAllOk c8state 5 500).2 (by decide)

/-- Claim C1: last-writer-wins for remote EndpointAdd. If an endpoint with the
same id exists with an equal-or-newer timestamp the call is a nil no-op with
no datapath call; if the incoming endpoint is strictly newer, the old endpoint
is uninstalled from the datapath and replaced in the endpoint table. -/
theorem endpointAdd_lastWriterWins (dp : DpOracle) (s : OfnetAgentState)
    (ep oldEp : OfnetEndpoint) (hself : ep.OriginatorIp ≠ s.localIp)
    (hold : alookup s.endpointDb ep.EndpointID = some oldEp) :
    (ep.Timestamp ≤ oldEp.Timestamp →
      EndpointAdd dp s ep = { state := s, ret := none, trace := [] }) ∧
    (oldEp.Timestamp < ep.Timestamp →
      DpEvent.removeEndpoint oldEp ∈ (EndpointAdd dp s ep).trace ∧
      alookup (EndpointAdd dp s ep).state.endpointDb ep.EndpointID = some ep) := by
  constructor
  · intro hle
    unfold EndpointAdd
    rw [if_neg hself, hold]
    have hta : timeAfter ep.Timestamp oldEp.Timestamp = false := by
      simp [timeAfter, Nat.not_lt.mpr hle]
    simp [hta]
  · intro hlt
    unfold EndpointAdd
    rw [if_neg hself, hold]
    have hta : timeAfter ep.Timestamp oldEp.Timestamp = true := by
      simp [timeAfter, hlt]
    simp only [hta, Bool.not_true, Bool.false_eq_true, if_false]
    unfold endpointAddInstall
    simp only []
    cases hv : alookup s.vtepTable ep.OriginatorIp with
    | none => simp [hv, alookup_ains_self]
    | some p => simp [hv, alookup_ains_self]

/-- Witness for C1: a stale update (timestamp 5 against 10) is ignored. -/
theorem endpointAdd_lastWriterWins_witness :
    EndpointAdd dpAllOk c1state c1new = { state := c1state, ret := none, trace := [] } :=
  (endpointAdd_lastWriterWins dpAllOk c1state c1new c1old (by decide) (by decide)).1
    (by decide)

/-- Counterexample to claim C2 as stated: a remote EndpointAdd whose
originator has no VTEP entry does return the VTEP not found error, but the
endpoint is nonetheless recorded in the endpoint table, so the post-state
holds a non-local endpoint whose originator is not in the VTEP table,
contradicting the claimed invariant. -/
theorem endpointAdd_vtepMissing_counterexample :
    (EndpointAdd dpAllOk c2state c2ep).ret = some "VTEP not found" ∧
    alookup (EndpointAdd dpAllOk c2state c2ep).state.endpointDb c2ep.EndpointID =
      some c2ep ∧
    c2ep.OriginatorIp ≠ (EndpointAdd dpAllOk c2state c2ep).state.localIp ∧
    alookup (EndpointAdd dpAllOk c2state c2ep).state.vtepTable c2ep.OriginatorIp =
      none := by
  decide

/-- Claim C2 as amended: a remote EndpointAdd that passes the last-writer-wins
check and whose originator is not in the VTEP table returns the VTEP not found
error and never calls the datapath AddEndpoint, but the endpoint is still
recorded in the endpoint table. -/
theorem endpointAdd_vtepMissing_amended (dp : DpOracle) (s : OfnetAgentState)
    (ep : OfnetEndpoint) (hself : ep.OriginatorIp ≠ s.localIp)
    (hvtep : alookup s.vtepTable ep.OriginatorIp = none)
    (hlww : ∀ oldEp, alookup s.endpointDb ep.EndpointID = some oldEp →
      oldEp.Timestamp < ep.Timestamp) :
    (EndpointAdd dp s ep).ret = some "VTEP not found" ∧
    alookup (EndpointAdd dp s ep).state.endpointDb ep.EndpointID = some ep ∧
    DpEvent.addEndpoint ep ∉ (EndpointAdd dp s ep).trace := by
  unfold EndpointAdd
  rw [if_neg hself]
  cases hdb : alookup s.endpointDb ep.EndpointID with
  | none =>
    unfold endpointAddInstall
    simp only []
    simp [hvtep, alookup_ains_self]
  | some oldEp =>
    have hta : timeAfter ep.Timestamp oldEp.Timestamp = true := by
      simp [timeAfter, hlww oldEp hdb]
    simp only [hta, Bool.not_true, Bool.false_eq_true, if_false]
    unfold endpointAddInstall
    simp only []
    simp [hvtep, alookup_ains_self]

/-- Witness for the amended C2 at a concrete empty VTEP table. -/
theorem endpointAdd_vtepMissing_amended_witness :
    (EndpointAdd dpAllOk c2state c2ep).ret = some "VTEP not found" :=
  (endpointAdd_vtepMissing_amended dpAllOk c2state c2ep (by decide) (by decide)
    (fun oldEp h => by simp [c2state, alookup] at h)).1

theorem buildLocalEndpoint_update (s : OfnetAgentState) (x : List (Nat × Nat))
    (endpoint : EndpointInfo) (vni now : Nat) :
    buildLocalEndpoint { s with portVlanMap := x } endpoint vni now =
      buildLocalEndpoint s endpoint vni now := rfl

/-- Claim C5: if the datapath install succeeds but announcing the endpoint to
the masters fails, AddLocalEndpoint returns the RPC error while the endpoint
stays installed in both the endpoint table and the local-endpoint table. -/
theorem addLocalEndpoint_noRollback (dp : DpOracle) (rpc : RpcAddOracle) (now : Nat)
    (s : OfnetAgentState) (endpoint : EndpointInfo) (vni : Nat) (e : String)
    (hvlan : alookup s.vlanVniMap endpoint.Vlan = some vni)
    (hdp : dp (DpEvent.addLocalEndpoint (buildLocalEndpoint s endpoint vni now)) = none)
    (hrpc : announceToMasters rpc s.masterDb (buildLocalEndpoint s endpoint vni now) =
      some e) :
    (AddLocalEndpoint dp rpc now s endpoint).ret = some e ∧
    alookup (AddLocalEndpoint dp rpc now s endpoint).state.endpointDb
      (getEndpointId endpoint) = some (buildLocalEndpoint s endpoint vni now) ∧
    alookup (AddLocalEndpoint dp rpc now s endpoint).state.localEndpointDb
      endpoint.PortNo = some (buildLocalEndpoint s endpoint vni now) := by
  unfold AddLocalEndpoint
  simp only [buildLocalEndpoint_update]
  simp only [hvlan]
  simp only [hdp]
  simp [hrpc, alookup_ains_self]

/-- Witness for C5: one master refusing the announce leaves the endpoint
installed and surfaces the RPC error. -/
theorem addLocalEndpoint_noRollback_witness :
    (AddLocalEndpoint dpAllOk rpcRefuse 50 c5state c5info).ret =
      some "connection refused" ∧
    alookup (AddLocalEndpoint dpAllOk rpcRefuse 50 c5state c5info).state.endpointDb
      (getEndpointId c5info) = some (buildLocalEndpoint c5state c5info 100 50) ∧
    alookup (AddLocalEndpoint dpAllOk rpcRefuse 50 c5state c5info).state.localEndpointDb
      c5info.PortNo = some (buildLocalEndpoint c5state c5info 100 50) :=
  addLocalEndpoint_noRollback dpAllOk rpcRefuse 50 c5state c5info 100
    "connection refused" (by decide) rfl rfl

/-- Counterexample to claim C6 as stated: with the vlan configured and the
port unoccupied, AddLocalEndpoint followed by RemoveLocalEndpoint does not
restore the prior state, because a pre-existing endpoint-table entry under the
same endpoint id (a remote endpoint with the same IP) is overwritten by the
add and destroyed by the remove. -/
theorem addRemoveRoundTrip_counterexample :
    alookup c6state.vlanVniMap c6info.Vlan = some 100 ∧
    alookup c6state.localEndpointDb c6info.PortNo = none ∧
    (RemoveLocalEndpoint dpAllOk
        (AddLocalEndpoint dpAllOk rpcAllOk 50 c6state c6info).state
        c6info.PortNo).state ≠ c6state := by
  decide

/-- Claim C6 as amended: the add/remove round trip restores the agent state
provided additionally that before the add the port-to-VLAN map has no entry at
the port and the endpoint table has no entry under the endpoint id. -/
theorem addRemoveRoundTrip_amended (dp : DpOracle) (rpc : RpcAddOracle) (now : Nat)
    (s : OfnetAgentState) (endpoint : EndpointInfo) (vni : Nat)
    (hvlan : alookup s.vlanVniMap endpoint.Vlan = some vni)
    (hport : alookup s.localEndpointDb endpoint.PortNo = none)
    (hpvm : alookup s.portVlanMap endpoint.PortNo = none)
    (hdb : alookup s.endpointDb endpoint.IpAddr = none) :
    (RemoveLocalEndpoint dp
        (AddLocalEndpoint dp rpc now s endpoint).state endpoint.PortNo).state = s := by
  unfold AddLocalEndpoint
  simp only [buildLocalEndpoint_update]
  simp only [hvlan]
  cases hdp : dp (DpEvent.addLocalEndpoint (buildLocalEndpoint s endpoint vni now)) with
  | some e =>
    simp only [hdp]
    unfold RemoveLocalEndpoint
    simp only [hport]
    simp only [adel_ains endpoint.Vlan hpvm]
  | none =>
    simp only [hdp]
    unfold RemoveLocalEndpoint
    simp only [alookup_ains_self]
    simp only [buildLocalEndpoint, getEndpointId]
    simp only [adel_ains endpoint.Vlan hpvm,
      adel_ains (buildLocalEndpoint s endpoint vni now) hport]
    have hdb2 : adel (ains s.endpointDb endpoint.IpAddr
        (buildLocalEndpoint s endpoint vni now)) endpoint.IpAddr = s.endpointDb :=
      adel_ains _ hdb
    simp only [buildLocalEndpoint, getEndpointId] at hdb2
    have hport2 : adel (ains s.localEndpointDb endpoint.PortNo
        (buildLocalEndpoint s endpoint vni now)) endpoint.PortNo = s.localEndpointDb :=
      adel_ains _ hport
    simp only [buildLocalEndpoint, getEndpointId] at hport2
    simp only [hdb2, hport2]

/-- Witness for the amended C6 at a clean concrete state. -/
theorem addRemoveRoundTrip_amended_witness :
    (RemoveLocalEndpoint dpAllOk
        (AddLocalEndpoint dpAllOk rpcAllOk 50 c6wstate c6info).state
        c6info.PortNo).state = c6wstate :=
  addRemoveRoundTrip_amended dpAllOk rpcAllOk 50 c6wstate c6info 100
    (by decide) (by decide) (by decide) (by decide)

/-- Claim C7: after RemoveVtepPort for a remote ip distinct from the agent's
own, no endpoint originated by that remote remains in the endpoint table, each
such endpoint was uninstalled from the datapath, and the remote is no longer a
key of the VTEP table. The endpoint table is assumed well-formed: each entry
is keyed by its endpoint id, which is how the agent maintains it. -/
theorem removeVtepPort_purges (dp : DpOracle) (s : OfnetAgentState) (portNo : Nat)
    (remoteIp : String) (hself : remoteIp ≠ s.localIp)
    (hids : ∀ p ∈ s.endpointDb, p.2.EndpointID = p.1) :
    (∀ k ep, alookup (RemoveVtepPort dp s portNo remoteIp).state.endpointDb k =
        some ep → ep.OriginatorIp ≠ remoteIp) ∧
    alookup (RemoveVtepPort dp s portNo remoteIp).state.vtepTable remoteIp = none ∧
    (∀ k ep, alookup s.endpointDb k = some ep → ep.OriginatorIp = remoteIp →
      DpEvent.removeEndpoint ep ∈ (RemoveVtepPort dp s portNo remoteIp).trace) := by
  refine ⟨?_, ?_, ?_⟩
  · intro k ep hlk hor
    have hmem : (k, ep) ∈ s.endpointDb :=
      removeVtepLoop_mem dp remoteIp s.endpointDb
        { s with vtepTable := adel s.vtepTable remoteIp } (k, ep)
        (mem_of_alookup_some hlk)
    have hnone : alookup (removeVtepLoop dp remoteIp s.endpointDb
        { s with vtepTable := adel s.vtepTable remoteIp }).1.endpointDb k = none :=
      removeVtepLoop_purge dp remoteIp s.endpointDb
        { s with vtepTable := adel s.vtepTable remoteIp } k ep hmem
        (hids (k, ep) hmem) hor hself
    have : (some ep : Option OfnetEndpoint) = none := hlk ▸ hnone
    exact Option.noConfusion this
  · have hvt := removeVtepLoop_vtepTable dp remoteIp s.endpointDb
      { s with vtepTable := adel s.vtepTable remoteIp }
    show alookup (removeVtepLoop dp remoteIp s.endpointDb
      { s with vtepTable := adel s.vtepTable remoteIp }).1.vtepTable remoteIp = none
    rw [hvt]
    exact alookup_adel_self s.vtepTable remoteIp
  · intro k ep hlk hor
    have halive : (alookup s.endpointDb k).isSome = true := by
      rw [hlk]; rfl
    have htr := removeVtepLoop_trace dp remoteIp s.endpointDb
      { s with vtepTable := adel s.vtepTable remoteIp } k ep hids hlk hor hself halive
    exact List.mem_append_left _ htr

/-- Witness for C7 at a concrete state with one endpoint behind the VTEP. -/
theorem removeVtepPort_purges_witness :
    alookup (RemoveVtepPort dpAllOk c7state 20 "10.10.10.2").state.vtepTable
      "10.10.10.2" = none :=
  (removeVtepPort_purges dpAllOk c7state 20 "10.10.10.2" (by decide) (by decide)).2.1

theorem AddRule_ok_of_fresh (s : PolicyAgentState) (r : OfnetPolicyRule)
    (da dam sa sam fp fpm : Option Nat)
    (hfresh : alookup s.Rules r.RuleId = none)
    (hdst : parseRuleIp r.DstIpAddr = Except.ok (da, dam))
    (hsrc : parseRuleIp r.SrcIpAddr = Except.ok (sa, sam))
    (hflg : tcpFlagsParse r = Except.ok (fp, fpm)) :
    AddRule s r =
      ({ Rules := ains s.Rules r.RuleId
           { rule := r, flow := mkRuleFlow r da dam sa sam fp fpm }
         policyTableFlows := s.policyTableFlows ++ [mkRuleFlow r da dam sa sam fp fpm] },
       none) := by
  unfold AddRule
  simp only [hfresh, hdst, hsrc, hflg]

theorem AddRule_err_of_flags (s : PolicyAgentState) (r : OfnetPolicyRule)
    (da dam sa sam : Option Nat) (e : String)
    (hfresh : alookup s.Rules r.RuleId = none)
    (hdst : parseRuleIp r.DstIpAddr = Except.ok (da, dam))
    (hsrc : parseRuleIp r.SrcIpAddr = Except.ok (sa, sam))
    (hflg : tcpFlagsParse r = Except.error e) :
    AddRule s r = (s, some e) := by
  unfold AddRule
  simp only [hfresh, hdst, hsrc, hflg]

/-- Claim C3: the group metadata encodings of DstGroupMetadata and
SrcGroupMetadata, the spec example for destination group 42, and the way
AddRule combines them in the installed flow: both groups OR-combined with
OR-combined masks, or a single nonzero group used alone. -/
theorem policy_groupMetadata (s : PolicyAgentState) (r : OfnetPolicyRule)
    (da dam sa sam fp fpm : Option Nat)
    (hfresh : alookup s.Rules r.RuleId = none)
    (hdst : parseRuleIp r.DstIpAddr = Except.ok (da, dam))
    (hsrc : parseRuleIp r.SrcIpAddr = Except.ok (sa, sam))
    (hflg : tcpFlagsParse r = Except.ok (fp, fpm)) :
    (∀ g : Int, DstGroupMetadata g =
      ((goUint64OfInt g <<< 1) % 2 ^ 64 &&& 0xfffe, 0xfffe)) ∧
    (∀ g : Int, SrcGroupMetadata g =
      ((goUint64OfInt g <<< 16) % 2 ^ 64 &&& 0x7fff0000, 0x7fff0000)) ∧
    DstGroupMetadata 42 = (0x54, 0xfffe) ∧
    alookup (AddRule s r).1.Rules r.RuleId =
      some { rule := r, flow := mkRuleFlow r da dam sa sam fp fpm } ∧
    (r.SrcEndpointGroup ≠ 0 → r.DstEndpointGroup ≠ 0 →
      (mkRuleFlow r da dam sa sam fp fpm).flowMatch.Metadata =
        some ((SrcGroupMetadata r.SrcEndpointGroup).1 |||
          (DstGroupMetadata r.DstEndpointGroup).1) ∧
      (mkRuleFlow r da dam sa sam fp fpm).flowMatch.MetadataMask =
        some ((SrcGroupMetadata r.SrcEndpointGroup).2 |||
          (DstGroupMetadata r.DstEndpointGroup).2)) ∧
    (r.SrcEndpointGroup ≠ 0 → r.DstEndpointGroup = 0 →
      (mkRuleFlow r da dam sa sam fp fpm).flowMatch.Metadata =
        some (SrcGroupMetadata r.SrcEndpointGroup).1 ∧
      (mkRuleFlow r da dam sa sam fp fpm).flowMatch.MetadataMask =
        some (SrcGroupMetadata r.SrcEndpointGroup).2) ∧
    (r.SrcEndpointGroup = 0 → r.DstEndpointGroup ≠ 0 →
      (mkRuleFlow r da dam sa sam fp fpm).flowMatch.Metadata =
        some (DstGroupMetadata r.DstEndpointGroup).1 ∧
      (mkRuleFlow r da dam sa sam fp fpm).flowMatch.MetadataMask =
        some (DstGroupMetadata r.DstEndpointGroup).2) := by
  refine ⟨fun g => rfl, fun g => rfl, by decide, ?_, ?_, ?_, ?_⟩
  · rw [AddRule_ok_of_fresh s r da dam sa sam fp fpm hfresh hdst hsrc hflg]
    exact alookup_ains_self s.Rules r.RuleId _
  · intro hsg hdg
    have hm : ruleMetadata r =
        (some ((SrcGroupMetadata r.SrcEndpointGroup).1 |||
          (DstGroupMetadata r.DstEndpointGroup).1),
         some ((SrcGroupMetadata r.SrcEndpointGroup).2 |||
          (DstGroupMetadata r.DstEndpointGroup).2)) := by
      unfold ruleMetadata
      rw [if_pos ⟨hsg, hdg⟩]
    constructor
    · show (ruleMetadata r).1 =
        some ((SrcGroupMetadata r.SrcEndpointGroup).1 |||
          (DstGroupMetadata r.DstEndpointGroup).1)
      rw [hm]
    · show (ruleMetadata r).2 =
        some ((SrcGroupMetadata r.SrcEndpointGroup).2 |||
          (DstGroupMetadata r.DstEndpointGroup).2)
      rw [hm]
  · intro hsg hdg
    have hm : ruleMetadata r =
        (some (SrcGroupMetadata r.SrcEndpointGroup).1,
         some (SrcGroupMetadata r.SrcEndpointGroup).2) := by
      unfold ruleMetadata
      rw [if_neg (fun hc => hc.2 hdg), if_pos hsg]
    constructor
    · show (ruleMetadata r).1 = some (SrcGroupMetadata r.SrcEndpointGroup).1
      rw [hm]
    · show (ruleMetadata r).2 = some (SrcGroupMetadata r.SrcEndpointGroup).2
      rw [hm]
  · intro hsg hdg
    have hm : ruleMetadata r =
        (some (DstGroupMetadata r.DstEndpointGroup).1,
         some (DstGroupMetadata r.DstEndpointGroup).2) := by
      unfold ruleMetadata
      rw [if_neg (fun hc => hc.1 hsg), if_neg (fun hc => hc hsg), if_pos hdg]
    constructor
    · show (ruleMetadata r).1 = some (DstGroupMetadata r.DstEndpointGroup).1
      rw [hm]
    · show (ruleMetadata r).2 = some (DstGroupMetadata r.DstEndpointGroup).2
      rw [hm]

/-- Witness for C3: destination group 42 alone compiles to metadata 0x54 with
mask 0xfffe in the installed flow. -/
theorem policy_groupMetadata_witness :
    alookup (AddRule polEmpty c3rule).1.Rules "c3" =
      some { rule := c3rule, flow := mkRuleFlow c3rule none none none none none none } ∧
    (mkRuleFlow c3rule none none none none none none).flowMatch.Metadata = some 0x54 ∧
    (mkRuleFlow c3rule none none none none none none).flowMatch.MetadataMask =
      some 0xfffe :=
  ⟨(policy_groupMetadata polEmpty c3rule none none none none none none
      rfl rfl rfl rfl).2.2.2.1, by decide, by decide⟩

/-- Claim C9: for TCP rules with a nonempty TcpFlags string, exactly the five
strings syn, syn-comma-ack, ack, syn-comma-bang-ack, bang-syn-comma-ack are
accepted, compiling the listed flag and mask values into the installed flow;
any other string makes AddRule return the Unknown TCP flag error with the
state (rules database and installed flows) unchanged. -/
theorem addRule_tcpFlags (s : PolicyAgentState) (r : OfnetPolicyRule)
    (da dam sa sam : Option Nat)
    (hfresh : alookup s.Rules r.RuleId = none)
    (hdst : parseRuleIp r.DstIpAddr = Except.ok (da, dam))
    (hsrc : parseRuleIp r.SrcIpAddr = Except.ok (sa, sam))
    (hproto : r.IpProtocol = 6) (hne : r.TcpFlags ≠ "") :
    (r.TcpFlags ≠ "syn" → r.TcpFlags ≠ "syn,ack" → r.TcpFlags ≠ "ack" →
     r.TcpFlags ≠ "syn,!ack" → r.TcpFlags ≠ "!syn,ack" →
      AddRule s r = (s, some "Unknown TCP flag")) ∧
    (∀ fp fpm, tcpFlagsParse r = Except.ok (fp, fpm) →
      AddRule s r =
        ({ Rules := ains s.Rules r.RuleId
             { rule := r, flow := mkRuleFlow r da dam sa sam fp fpm }
           policyTableFlows :=
             s.policyTableFlows ++ [mkRuleFlow r da dam sa sam fp fpm] }, none) ∧
      (mkRuleFlow r da dam sa sam fp fpm).flowMatch.TcpFlags = fp ∧
      (mkRuleFlow r da dam sa sam fp fpm).flowMatch.TcpFlagsMask = fpm) ∧
    (r.TcpFlags = "syn" → tcpFlagsParse r =
      Except.ok (some TCP_FLAG_SYN, some TCP_FLAG_SYN)) ∧
    (r.TcpFlags = "syn,ack" → tcpFlagsParse r =
      Except.ok (some (TCP_FLAG_ACK ||| TCP_FLAG_SYN),
        some (TCP_FLAG_ACK ||| TCP_FLAG_SYN))) ∧
    (r.TcpFlags = "ack" → tcpFlagsParse r =
      Except.ok (some TCP_FLAG_ACK, some TCP_FLAG_ACK)) ∧
    (r.TcpFlags = "syn,!ack" → tcpFlagsParse r =
      Except.ok (some TCP_FLAG_SYN, some (TCP_FLAG_ACK ||| TCP_FLAG_SYN))) ∧
    (r.TcpFlags = "!syn,ack" → tcpFlagsParse r =
      Except.ok (some TCP_FLAG_ACK, some (TCP_FLAG_ACK ||| TCP_FLAG_SYN))) := by
  refine ⟨?_, ?_, ?_, ?_, ?_, ?_, ?_⟩
  · intro h1 h2 h3 h4 h5
    have hflg : tcpFlagsParse r = Except.error "Unknown TCP flag" := by
      unfold tcpFlagsParse
      rw [if_pos ⟨hproto, hne⟩, if_neg h1, if_neg h2, if_neg h3, if_neg h4, if_neg h5]
    exact AddRule_err_of_flags s r da dam sa sam _ hfresh hdst hsrc hflg
  · intro fp fpm hflg
    exact ⟨AddRule_ok_of_fresh s r da dam sa sam fp fpm hfresh hdst hsrc hflg, rfl, rfl⟩
  · intro h1
    unfold tcpFlagsParse
    rw [if_pos ⟨hproto, hne⟩, if_pos h1]
  · intro h2
    have h1 : r.TcpFlags ≠ "syn" := by rw [h2]; decide
    unfold tcpFlagsParse
    rw [if_pos ⟨hproto, hne⟩, if_neg h1, if_pos h2]
  · intro h3
    have h1 : r.TcpFlags ≠ "syn" := by rw [h3]; decide
    have h2 : r.TcpFlags ≠ "syn,ack" := by rw [h3]; decide
    unfold tcpFlagsParse
    rw [if_pos ⟨hproto, hne⟩, if_neg h1, if_neg h2, if_pos h3]
  · intro h4
    have h1 : r.TcpFlags ≠ "syn" := by rw [h4]; decide
    have h2 : r.TcpFlags ≠ "syn,ack" := by rw [h4]; decide
    have h3 : r.TcpFlags ≠ "ack" := by rw [h4]; decide
    unfold tcpFlagsParse
    rw [if_pos ⟨hproto, hne⟩, if_neg h1, if_neg h2, if_neg h3, if_pos h4]
  · intro h5
    have h1 : r.TcpFlags ≠ "syn" := by rw [h5]; decide
    have h2 : r.TcpFlags ≠ "syn,ack" := by rw [h5]; decide
    have h3 : r.TcpFlags ≠ "ack" := by rw [h5]; decide
    have h4 : r.TcpFlags ≠ "syn,!ack" := by rw [h5]; decide
    unfold tcpFlagsParse
    rw [if_pos ⟨hproto, hne⟩, if_neg h1, if_neg h2, if_neg h3, if_neg h4, if_pos h5]

/-- Witness for C9: an unrecognized flag string is rejected with no change. -/
theorem addRule_tcpFlags_witness :
    AddRule polEmpty c9rule = (polEmpty, some "Unknown TCP flag") :=
  (addRule_tcpFlags polEmpty c9rule none none none none rfl rfl rfl rfl
      (by decide)).1
    (by decide) (by decide) (by decide) (by decide) (by decide)
